import Mathlib

/-!
Verification of the enrollment-and-verification core of the
Biometric_security-Face-Voice repository (files `utils.py` and
`steamlit_app.py`), as a shallow embedding.

Modelling conventions:
* Biometric embedding vectors are `List ℚ` (the numeric payload of the
  numpy arrays); similarity scores live in `ℝ` because cosine similarity
  involves square roots.
* The file store rooted at `BASE_USERS_DIR` is an `Option` of a directory
  listing: `none` means the store root does not exist on disk, `some l`
  lists the per-user subdirectories together with the files each contains
  (`face_enc.npy`, `voice_enc.npy`, `meta.json`, each possibly absent).
* Python exceptions become explicit error values (`AppError`); the
  Streamlit button handlers become functions from a store (plus the
  caller-supplied inputs) to a new store and an optional error.
* The two embedding extractors (`face_recognition`, SpeechBrain) are
  external collaborators; a handler that calls them receives their result
  as an `Option (List ℚ)` argument, `none` meaning the extractor raised
  (no face detected / voice extraction failed).
* Path-traversal behaviour of `Path(base_dir) / username` is modelled
  separately at the level of path components (`user_dir_path`), including
  the operating system's resolution of `..` and `.` segments.
-/

/-- Metadata dictionaries (`meta.json` contents): string-keyed, with the
string values the app actually stores (`username`, `role`, `created_by`). -/
abbrev MetaDict := List (String × String)

/-- `dict.__getitem__`-style lookup on the association-list model of a
Python dict (first matching key wins; keys are unique in dicts). -/
def metaLookup (m : MetaDict) (k : String) : Option String :=
  match m with
  | [] => none
  | p :: rest => if p.1 = k then some p.2 else metaLookup rest k

/-- `dict.update({k: v})` on the association-list model of a Python dict:
replace the value of `k` in place if present, otherwise append `(k, v)`. -/
def metaInsert (m : MetaDict) (k v : String) : MetaDict :=
  match m with
  | [] => [(k, v)]
  | p :: rest => if p.1 = k then (k, v) :: rest else p :: metaInsert rest k v

/-- One per-user directory `<base_dir>/<username>/`: the three artifacts
`face_enc.npy`, `voice_enc.npy`, `meta.json`, each possibly absent. -/
structure UserDir where
  face_enc : Option (List ℚ)
  voice_enc : Option (List ℚ)
  meta_json : Option MetaDict
deriving DecidableEq, Repr

/-- The file store under `BASE_USERS_DIR`: `none` when the store root
directory does not exist, otherwise the listing of per-user
subdirectories (directory name, contents). -/
abbrev Store := Option (List (String × UserDir))

/-- Errors of the embedded app: Python exceptions raised by `utils.py`
(`FileNotFoundError("User not found")`, `np.load` on a missing file,
`ValueError` from the face extractor, a SpeechBrain failure) plus the
policy failures of the Streamlit handlers (duplicate username, bootstrap
form hidden because users already exist, enrollment panel not shown
because the admin checkbox is unticked). -/
inductive AppError where
  | userNotFound
  | missingArtifact
  | noFaceDetected
  | voiceExtractionFailed
  | alreadyExists
  | alreadyBootstrapped
  | unauthorized
deriving DecidableEq, Repr

/-! ## Matcher (`utils.py` lines 82–94) -/

/-- Dot product of two embedding vectors (`zipWith` mirrors the
element-wise product of equal-length numpy arrays). -/
def dotQ (a b : List ℚ) : ℚ := (List.zipWith (fun x y => x * y) a b).sum

/-- `cosine_score(a, b)` (`utils.py` 82–85): cosine similarity
`dot(a,b) / (‖a‖·‖b‖)` as computed by sklearn's `cosine_similarity` on
the two vectors reshaped to single rows. -/
noncomputable def cosine_score (a b : List ℚ) : ℝ :=
  (dotQ a b : ℝ) / (Real.sqrt ((dotQ a a : ℚ) : ℝ) * Real.sqrt ((dotQ b b : ℚ) : ℝ))

/-- Default face threshold: the `threshold=0.55` default of
`is_face_match` (`utils.py` line 87). -/
def face_threshold : ℚ := 0.55

/-- Default voice threshold: the `threshold=0.6` default of
`is_voice_match` (`utils.py` line 92). -/
def voice_threshold : ℚ := 0.6

/-- `is_face_match(enc1, enc2, threshold)` (`utils.py` 87–90): returns
`(score >= threshold, score)` where `score = cosine_score(enc1, enc2)`. -/
noncomputable def is_face_match (enc1 enc2 : List ℚ) (threshold : ℚ) : Prop × ℝ :=
  (cosine_score enc1 enc2 ≥ (threshold : ℝ), cosine_score enc1 enc2)

/-- `is_voice_match(enc1, enc2, threshold)` (`utils.py` 92–94): returns
`(score >= threshold, score)` where `score = cosine_score(enc1, enc2)`. -/
noncomputable def is_voice_match (enc1 enc2 : List ℚ) (threshold : ℚ) : Prop × ℝ :=
  (cosine_score enc1 enc2 ≥ (threshold : ℝ), cosine_score enc1 enc2)

/-! ## Storage (`utils.py` lines 99–131) -/

/-- A freshly created, still empty per-user directory. -/
def emptyUserDir : UserDir := ⟨none, none, none⟩

/-- `ensure_user_dir(base_dir, username)` (`utils.py` 99–104): create the
store root if absent (`base.mkdir(parents=True, exist_ok=True)`) and the
per-user subdirectory if absent (`ud.mkdir(...)`); returns the resulting
listing of the store root (which now definitely exists). -/
def ensure_user_dir (s : Store) (username : String) : List (String × UserDir) :=
  if username ∈ (s.getD []).map Prod.fst then s.getD []
  else s.getD [] ++ [(username, emptyUserDir)]

/-- The dict serialized to `meta.json` by `save_user_embeddings`
(`utils.py` 110–111): `meta_data = meta or {}` — so a `None` **or empty**
dict is replaced by a fresh empty dict — followed by
`meta_data.update({"username": username})`. -/
def stored_meta (meta : Option MetaDict) (username : String) : MetaDict :=
  metaInsert
    (match meta with
     | some m => if m.isEmpty then [] else m
     | none => [])
    "username" username

/-- Overwrite the three artifacts of the entry named `u` (the effect of
the `np.save`/`json.dump` calls inside `<base>/<u>/`). -/
def updEntry (u : String) (f v : List ℚ) (md : MetaDict) (p : String × UserDir) :
    String × UserDir :=
  if p.1 = u then (u, ⟨some f, some v, some md⟩) else p

/-- Result of `save_user_embeddings`: the store afterwards, the dict that
was serialized to `meta.json`, and — because `meta_data.update` mutates
the caller's dict when `meta_data` aliases it — the value the caller's
`meta` argument holds after the call (`none` when the caller passed
`None`). -/
structure SaveResult where
  store : Store
  meta_data : MetaDict
  caller_meta : Option MetaDict
deriving Repr

/-- `save_user_embeddings(base_dir, username, face_enc, voice_enc, meta)`
(`utils.py` 106–113): ensure the user directory, write `face_enc.npy`,
`voice_enc.npy` and `meta.json`. `meta_data = meta or {}` aliases the
caller's dict exactly when that dict is non-`None` and non-empty, so only
then does `meta_data.update({"username": username})` mutate it. -/
def save_user_embeddings (s : Store) (username : String) (face_enc voice_enc : List ℚ)
    (meta : Option MetaDict) : SaveResult :=
  { store := some ((ensure_user_dir s username).map
      (updEntry username face_enc voice_enc (stored_meta meta username)))
  , meta_data := stored_meta meta username
  , caller_meta :=
      match meta with
      | none => none
      | some m => if m.isEmpty then some m else some (stored_meta meta username) }

/-- `load_user_embeddings(base_dir, username)` (`utils.py` 115–125):
`FileNotFoundError("User not found")` when `<base>/<username>` does not
exist; `np.load` raises when `face_enc.npy` or `voice_enc.npy` is absent;
`meta` defaults to the empty dict when `meta.json` is absent. -/
def load_user_embeddings (s : Store) (username : String) :
    Except AppError (List ℚ × List ℚ × MetaDict) :=
  match (s.getD []).find? (fun p => p.1 == username) with
  | none => Except.error AppError.userNotFound
  | some p =>
    match p.2.face_enc with
    | none => Except.error AppError.missingArtifact
    | some face_enc =>
      match p.2.voice_enc with
      | none => Except.error AppError.missingArtifact
      | some voice_enc => Except.ok (face_enc, voice_enc, p.2.meta_json.getD [])

/-- `list_users(base_dir)` (`utils.py` 127–131): `[]` when the store root
does not exist, otherwise the names of its (immediate) subdirectories. -/
def list_users (s : Store) : List String :=
  match s with
  | none => []
  | some l => l.map Prod.fst

/-- Store well-formedness: directory names under one parent directory are
necessarily pairwise distinct. -/
abbrev storeWf (s : Store) : Prop := (list_users s).Nodup

/-- A user directory named `u` exists under the store root. -/
def userDirExists (s : Store) (u : String) : Prop := ∃ d, (u, d) ∈ s.getD []

/-! ## Path model of `Path(base_dir) / username` (`utils.py` 99–104, 115–118)

`ensure_user_dir` and `load_user_embeddings` build the per-user location
as `Path(base_dir) / username` with the raw, caller-supplied username.
Paths are modelled as lists of components; `pathlib` joining splits the
username on `/` (dropping empty segments), an absolute username replaces
the base entirely, and the operating system then resolves `.` and `..`
segments when the path is used. -/

/-- Split a character list at `/` separators. -/
def splitAux (cs : List Char) (cur : List Char) : List (List Char) :=
  match cs with
  | [] => [cur.reverse]
  | c :: rest =>
    if c = '/' then cur.reverse :: splitAux rest [] else splitAux rest (c :: cur)

/-- Split a raw username into path components the way `pathlib` joining
does: split on `/`, drop empty segments. -/
def splitComponents (s : String) : List String :=
  ((splitAux s.data []).map (fun l => String.mk l)).filter (fun c => c ≠ "")

/-- Whether a raw username is an absolute path (in which case `pathlib`'s
`/` discards the base entirely). -/
def isAbsolute (s : String) : Bool :=
  match s.data with
  | c :: _ => c = '/'
  | [] => false

/-- One step of the operating system's path resolution: `.` is a no-op,
`..` removes the last component, anything else descends. -/
def osStep (acc : List String) (c : String) : List String :=
  if c = "." then acc else if c = ".." then acc.dropLast else acc ++ [c]

/-- Resolve a component list the way the operating system does when the
path is opened or created. -/
def osResolve (p : List String) : List String := p.foldl osStep []

/-- The filesystem location actually accessed for `Path(base) / username`
(`ud = base / username`, `utils.py` lines 102 and 116). -/
def user_dir_path (base : List String) (username : String) : List String :=
  if isAbsolute username then osResolve (splitComponents username)
  else osResolve (base ++ splitComponents username)

/-- The store root `BASE_USERS_DIR = "users"` (`steamlit_app.py` line 16)
as a component list. -/
def base_users_dir : List String := ["users"]

/-! ## Streamlit handlers (`steamlit_app.py`) -/

/-- The composite "create a template" operation: the duplicate-username
check of the Enroll New User handler (`steamlit_app.py` 156–157,
`if new_username in list_users(...)`) followed by
`save_user_embeddings` (`utils.py` 106–113). On a duplicate the handler
shows "Username already exists." and writes nothing. -/
def create (s : Store) (u : String) (f v : List ℚ) (m : Option MetaDict) :
    Store × Option AppError :=
  if u ∈ list_users s then (s, some AppError.alreadyExists)
  else ((save_user_embeddings s u f v m).store, none)

/-- The result record shown by `show_match_results` (`steamlit_app.py`
26–32): both per-modality decisions and scores. -/
structure MatchResult where
  face_ok : Prop
  face_score : ℝ
  voice_ok : Prop
  voice_score : ℝ

/-- The branch taken by `show_match_results` (`steamlit_app.py` 29–32):
"Access Granted" is shown exactly when `face_ok and voice_ok`. -/
def access_granted (r : MatchResult) : Prop := r.face_ok ∧ r.voice_ok

/-- The Authenticate page's Verify handler (`steamlit_app.py` 71–87), in
the order the source executes it: extract the live face encoding (the
extractor's failure is `ValueError` → `noFaceDetected`), then the live
voice embedding, then `load_user_embeddings` on the claimed username,
then both matches with the default thresholds. `faceRes`/`voiceRes` are
the outcomes of the two external extractor calls. -/
noncomputable def verifyFlow (s : Store) (target_user : String)
    (faceRes voiceRes : Option (List ℚ)) : Except AppError MatchResult :=
  match faceRes with
  | none => Except.error AppError.noFaceDetected
  | some face_enc_live =>
    match voiceRes with
    | none => Except.error AppError.voiceExtractionFailed
    | some voice_enc_live =>
      match load_user_embeddings s target_user with
      | Except.error e => Except.error e
      | Except.ok (face_enc_stored, voice_enc_stored, _) =>
        Except.ok
          { face_ok := (is_face_match face_enc_live face_enc_stored face_threshold).1
          , face_score := (is_face_match face_enc_live face_enc_stored face_threshold).2
          , voice_ok := (is_voice_match voice_enc_live voice_enc_stored voice_threshold).1
          , voice_score := (is_voice_match voice_enc_live voice_enc_stored voice_threshold).2 }

/-- The "Initialize first admin" expander (`steamlit_app.py` 121–139):
when `len(list_users(BASE_USERS_DIR)) == 0` the Create Admin button saves
the new user with `meta={"role": "admin"}`; otherwise the form is not
rendered at all (only "Users already exist; initializing admin not
required." is shown), modelled as the `alreadyBootstrapped` failure. The
embeddings `fenc`/`venc` are the successful results of the two extractor
calls. -/
def bootstrapAdmin (s : Store) (u : String) (fenc venc : List ℚ) :
    Store × Option AppError :=
  if (list_users s).length = 0 then
    ((save_user_embeddings s u fenc venc (some [("role", "admin")])).store, none)
  else (s, some AppError.alreadyBootstrapped)

/-- The "Enroll new user (Admin only)" panel (`steamlit_app.py` 145–165):
the panel is rendered if and only if the caller ticks the
`admin_flag` checkbox ("I confirm I successfully authenticated as
Admin") — a client-asserted flag; the `admin_authenticated` variable set
by the Admin Verify handler (lines 102–119) is local to that handler and
is never consulted here. Inside the panel the handler runs the
duplicate check and saves with `meta={"created_by": "admin"}`. With the
checkbox unticked no enrollment can happen (modelled as `unauthorized`). -/
def enrollPage (s : Store) (admin_flag : Bool) (new_username : String)
    (fenc venc : List ℚ) : Store × Option AppError :=
  if admin_flag then create s new_username fenc venc (some [("created_by", "admin")])
  else (s, some AppError.unauthorized)

/-! ## Helper lemmas about the store -/

lemma map_fst_updEntry (u : String) (f v : List ℚ) (md : MetaDict)
    (l : List (String × UserDir)) :
    (l.map (updEntry u f v md)).map Prod.fst = l.map Prod.fst := by
  induction l with
  | nil => rfl
  | cons p t ih =>
    simp only [List.map_cons, ih, List.cons.injEq, and_true]
    unfold updEntry
    split
    · next h => simpa using h.symm
    · rfl

lemma mem_fst_ensure (s : Store) (u : String) :
    u ∈ (ensure_user_dir s u).map Prod.fst := by
  unfold ensure_user_dir
  split
  · assumption
  · simp

lemma find?_map_updEntry (u : String) (f v : List ℚ) (md : MetaDict)
    (l : List (String × UserDir)) (h : u ∈ l.map Prod.fst) :
    (l.map (updEntry u f v md)).find? (fun p => p.1 == u)
      = some (u, ⟨some f, some v, some md⟩) := by
  induction l with
  | nil => simp at h
  | cons p t ih =>
    by_cases hp : p.1 = u
    · simp [updEntry, hp, List.find?]
    · have h' : u ∈ t.map Prod.fst := by
        rcases List.mem_map.mp h with ⟨q, hq, hqe⟩
        rcases List.mem_cons.mp hq with hq1 | hq2
        · exact absurd (hq1 ▸ hqe) hp
        · exact List.mem_map.mpr ⟨q, hq2, hqe⟩
      have hpe : (updEntry u f v md p).1 = p.1 := by simp [updEntry, hp]
      simp only [List.map_cons, List.find?]
      rw [show ((updEntry u f v md p).1 == u) = false by
        simpa [hpe] using hp]
      exact ih h'

lemma find?_key_none (l : List (String × UserDir)) (u : String)
    (h : u ∉ l.map Prod.fst) : l.find? (fun p => p.1 == u) = none := by
  rw [List.find?_eq_none]
  intro p hp
  simp only [beq_iff_eq]
  intro hpe
  exact h (List.mem_map.mpr ⟨p, hp, hpe⟩)

lemma load_save (s : Store) (u : String) (f v : List ℚ) (m : Option MetaDict) :
    load_user_embeddings (save_user_embeddings s u f v m).store u
      = Except.ok (f, v, stored_meta m u) := by
  have h := find?_map_updEntry u f v (stored_meta m u) (ensure_user_dir s u)
    (mem_fst_ensure s u)
  unfold load_user_embeddings
  simp only [save_user_embeddings, Option.getD_some]
  rw [h]
  rfl

lemma list_users_save (s : Store) (u : String) (f v : List ℚ) (m : Option MetaDict) :
    list_users (save_user_embeddings s u f v m).store
      = (ensure_user_dir s u).map Prod.fst := by
  simp only [save_user_embeddings, list_users]
  exact map_fst_updEntry u f v (stored_meta m u) (ensure_user_dir s u)

lemma mem_list_users_save (s : Store) (u : String) (f v : List ℚ) (m : Option MetaDict) :
    u ∈ list_users (save_user_embeddings s u f v m).store := by
  rw [list_users_save]
  exact mem_fst_ensure s u

lemma list_users_getD (s : Store) : list_users s = (s.getD []).map Prod.fst := by
  cases s <;> rfl

lemma metaLookup_metaInsert_self (m : MetaDict) (k v : String) :
    metaLookup (metaInsert m k v) k = some v := by
  induction m with
  | nil => simp [metaInsert, metaLookup]
  | cons p t ih =>
    by_cases hp : p.1 = k
    · simp [metaInsert, hp, metaLookup]
    · simp [metaInsert, hp, metaLookup, ih]

lemma metaLookup_metaInsert_isSome (m : MetaDict) (k k' v : String)
    (h : (metaLookup m k).isSome) : (metaLookup (metaInsert m k' v) k).isSome := by
  induction m with
  | nil => simp [metaLookup] at h
  | cons p t ih =>
    simp only [metaInsert]
    by_cases hp : p.1 = k'
    · rw [if_pos hp]
      by_cases hk : k' = k
      · simp [metaLookup, hk]
      · have hpk : ¬ p.1 = k := fun hc => hk (hp ▸ hc)
        simp only [metaLookup, hpk, if_false] at h
        simp only [metaLookup, hk, if_false]
        exact h
    · rw [if_neg hp]
      by_cases hpk : p.1 = k
      · simp [metaLookup, hpk]
      · simp only [metaLookup, hpk, if_false] at h
        simp only [metaLookup, hpk, if_false]
        exact ih h

lemma save_preserves_wf (s : Store) (u : String) (f v : List ℚ) (m : Option MetaDict)
    (h : storeWf s) : storeWf (save_user_embeddings s u f v m).store := by
  unfold storeWf at h ⊢
  rw [list_users_save]
  rw [list_users_getD] at h
  unfold ensure_user_dir
  split
  · exact h
  · next hmem =>
      rw [List.map_append, List.nodup_append]
      refine ⟨h, by simp, ?_⟩
      intro a ha hau
      simp only [List.map_singleton, List.mem_singleton] at hau
      subst hau
      exact hmem ha

lemma osResolve_clean (l : List String) (acc : List String)
    (h : ∀ c ∈ l, c ≠ ".." ∧ c ≠ ".") : l.foldl osStep acc = acc ++ l := by
  induction l generalizing acc with
  | nil => simp
  | cons c t ih =>
    have hc := h c (by simp)
    simp only [List.foldl_cons, osStep, hc.2, if_false, hc.1]
    rw [ih _ (fun x hx => h x (by simp [hx]))]
    simp

/-! ## Witness fixtures -/

/-- A store with exactly one enrolled user, `alice`. -/
def aliceDir : UserDir :=
  ⟨some [1, 0, 0, 0], some [1, 0, 0, 0], some [("role", "admin"), ("username", "alice")]⟩

/-- The one-user store used by concrete witnesses. -/
def sAlice : Store := some [("alice", aliceDir)]

/-! ## Claims -/

/-- Claim C8: for all vectors `a`, `b` and every threshold `t`,
`is_face_match`/`is_voice_match` return `(passed, score)` with `score`
the cosine similarity of `a` and `b` and `passed` exactly when
`score ≥ t`; the default thresholds are 0.55 for face and 0.60 for
voice. -/
theorem match_threshold_spec :
    (∀ a b t, (is_face_match a b t).1 ↔ (is_face_match a b t).2 ≥ (t : ℝ)) ∧
    (∀ a b t, (is_face_match a b t).2 = cosine_score a b) ∧
    (∀ a b t, (is_voice_match a b t).1 ↔ (is_voice_match a b t).2 ≥ (t : ℝ)) ∧
    (∀ a b t, (is_voice_match a b t).2 = cosine_score a b) ∧
    (∀ a b, cosine_score a b
      = (dotQ a b : ℝ) / (Real.sqrt ((dotQ a a : ℚ) : ℝ) * Real.sqrt ((dotQ b b : ℚ) : ℝ))) ∧
    face_threshold = 0.55 ∧ voice_threshold = 0.6 :=
  ⟨fun _ _ _ => Iff.rfl, fun _ _ _ => rfl, fun _ _ _ => Iff.rfl, fun _ _ _ => rfl,
   fun _ _ => rfl, rfl, rfl⟩

/-- Claim C9: `list_users` returns the set of enrolled usernames — the
names of the immediate subdirectories of the store root — with no
duplicates possible (directory names under one parent are distinct, an
invariant every `save_user_embeddings` preserves), and returns the empty
list when the store root does not exist. -/
theorem list_users_spec (s : Store) :
    (s = none → list_users s = []) ∧
    (∀ u, u ∈ list_users s ↔ userDirExists s u) ∧
    (storeWf s → (list_users s).Nodup) ∧
    (∀ u f v m, storeWf s → storeWf (save_user_embeddings s u f v m).store) := by
  refine ⟨?_, ?_, fun h => h, fun u f v m h => save_preserves_wf s u f v m h⟩
  · rintro rfl; rfl
  · intro u
    rw [list_users_getD]
    constructor
    · intro h
      rcases List.mem_map.mp h with ⟨p, hp, he⟩
      subst he
      exact ⟨p.2, by simpa using hp⟩
    · rintro ⟨d, hd⟩
      exact List.mem_map.mpr ⟨(u, d), hd, rfl⟩

/-- Claim C9 witness: the concrete one-user store is well-formed and its
listing has no duplicates. -/
theorem list_users_spec_witness : (list_users sAlice).Nodup :=
  (list_users_spec sAlice).2.2.1 (by decide)

/-- Claim C2: creating a template for a username that already exists
fails with `AlreadyExists` and leaves the store — in particular the
existing stored template — unchanged, and a `create` immediately
following a successful `create` of the same username fails the same
way. -/
theorem create_duplicate_fails (s : Store) (u : String) (f v f2 v2 : List ℚ)
    (m m2 : Option MetaDict) :
    (u ∈ list_users s →
      create s u f v m = (s, some AppError.alreadyExists) ∧
      load_user_embeddings (create s u f v m).1 u = load_user_embeddings s u) ∧
    ((create s u f v m).2 = none →
      create (create s u f v m).1 u f2 v2 m2
        = ((create s u f v m).1, some AppError.alreadyExists)) := by
  constructor
  · intro h
    have hc : create s u f v m = (s, some AppError.alreadyExists) := by
      unfold create; rw [if_pos h]
    exact ⟨hc, by rw [hc]⟩
  · intro h
    by_cases hmem : u ∈ list_users s
    · unfold create at h
      rw [if_pos hmem] at h
      simp at h
    · have hstore : (create s u f v m).1 = (save_user_embeddings s u f v m).store := by
        unfold create; rw [if_neg hmem]
      rw [hstore]
      unfold create
      rw [if_pos (mem_list_users_save s u f v m)]

/-- Claim C2 witness: re-creating `alice` in the one-user store fails
with `AlreadyExists` and returns the store unchanged. -/
theorem create_duplicate_fails_witness :
    create sAlice "alice" [1] [1] none = (sAlice, some AppError.alreadyExists) :=
  ((create_duplicate_fails sAlice "alice" [1] [1] [2] [2] none none).1 (by decide)).1

/-- Claim C6: `create(u, f, v, m)` followed by `read(u)` succeeds and
returns exactly the face vector `f`, the voice vector `v`, and a
metadata dict that maps `"username"` to `u` and keeps every key of
`m`. -/
theorem create_read_roundtrip (s : Store) (u : String) (f v : List ℚ) (m : MetaDict)
    (h : u ∉ list_users s) :
    (create s u f v (some m)).2 = none ∧
    load_user_embeddings (create s u f v (some m)).1 u
      = Except.ok (f, v, stored_meta (some m) u) ∧
    metaLookup (stored_meta (some m) u) "username" = some u ∧
    (∀ k, (metaLookup m k).isSome → (metaLookup (stored_meta (some m) u) k).isSome) := by
  have hstore : create s u f v (some m)
      = ((save_user_embeddings s u f v (some m)).store, none) := by
    unfold create; rw [if_neg h]
  refine ⟨by rw [hstore], by rw [hstore]; exact load_save s u f v (some m),
    metaLookup_metaInsert_self _ _ _, ?_⟩
  intro k hk
  unfold stored_meta
  by_cases hm : m.isEmpty
  · rw [List.isEmpty_iff] at hm
    subst hm
    simp [metaLookup] at hk
  · simp only [hm, if_false]
    exact metaLookup_metaInsert_isSome m k "username" u hk

/-- Claim C6 witness: enrolling `carol` into the empty store and reading
her back returns the stored vectors and metadata. -/
theorem create_read_roundtrip_witness :
    load_user_embeddings (create none "carol" [1] [2] (some [("role", "user")])).1 "carol"
      = Except.ok ([1], [2], stored_meta (some [("role", "user")]) "carol") :=
  (create_read_roundtrip none "carol" [1] [2] [("role", "user")] (by decide)).2.1

/-- Claim C7: the enrollment workflow is a state machine over the store
population: with no users enrolled, `bootstrapAdmin` succeeds, stores a
template whose metadata maps `"role"` to `"admin"`, and transitions to
the populated state; with at least one user enrolled it is disallowed
(the code hides the form, modelled as the `alreadyBootstrapped` failure),
so a second bootstrap can never occur. -/
theorem bootstrap_state_machine (s : Store) (u u2 : String) (f v f2 v2 : List ℚ) :
    (list_users s = [] →
      (bootstrapAdmin s u f v).2 = none ∧
      load_user_embeddings (bootstrapAdmin s u f v).1 u
        = Except.ok (f, v, [("role", "admin"), ("username", u)]) ∧
      metaLookup [("role", "admin"), ("username", u)] "role" = some "admin" ∧
      list_users (bootstrapAdmin s u f v).1 ≠ []) ∧
    (list_users s ≠ [] → bootstrapAdmin s u f v = (s, some AppError.alreadyBootstrapped)) ∧
    (list_users s = [] →
      (bootstrapAdmin (bootstrapAdmin s u f v).1 u2 f2 v2).2
        = some AppError.alreadyBootstrapped) := by
  have hmeta : stored_meta (some [("role", "admin")]) u
      = [("role", "admin"), ("username", u)] := by
    simp [stored_meta, metaInsert]
  refine ⟨?_, ?_, ?_⟩
  · intro h
    have h0 : (list_users s).length = 0 := by rw [h]; rfl
    have hb : bootstrapAdmin s u f v
        = ((save_user_embeddings s u f v (some [("role", "admin")])).store, none) := by
      unfold bootstrapAdmin; rw [if_pos h0]
    refine ⟨by rw [hb], ?_, by simp [metaLookup], ?_⟩
    · rw [hb, ← hmeta]
      exact load_save s u f v (some [("role", "admin")])
    · rw [hb]
      exact List.ne_nil_of_mem (mem_list_users_save s u f v _)
  · intro h
    unfold bootstrapAdmin
    rw [if_neg (fun h0 => h (List.length_eq_zero.mp h0))]
  · intro h
    have h0 : (list_users s).length = 0 := by rw [h]; rfl
    have hb : bootstrapAdmin s u f v
        = ((save_user_embeddings s u f v (some [("role", "admin")])).store, none) := by
      unfold bootstrapAdmin; rw [if_pos h0]
    rw [hb]
    have hmem : u ∈ list_users (save_user_embeddings s u f v (some [("role", "admin")])).store :=
      mem_list_users_save s u f v _
    unfold bootstrapAdmin
    rw [if_neg (fun hz => (List.ne_nil_of_mem hmem) (List.length_eq_zero.mp hz))]

/-- Claim C7 witness: bootstrapping `alice` into the empty store succeeds
and a second bootstrap is then refused. -/
theorem bootstrap_state_machine_witness :
    (bootstrapAdmin (bootstrapAdmin none "alice" [1] [2]).1 "bob" [1] [2]).2
      = some AppError.alreadyBootstrapped :=
  (bootstrap_state_machine none "alice" "bob" [1] [2] [1] [2]).2.2 rfl

/-- Claim C10 counterexample: the claim says every non-`None` caller dict
is mutated in place to contain the `"username"` key; but for the empty
dict `{}` (non-`None`), `meta_data = meta or {}` drops the caller's dict
because `{}` is falsy, so the caller's dict still lacks `"username"`
after the call while the stored `meta.json` has it. -/
theorem save_meta_empty_dict_not_mutated :
    (save_user_embeddings none "alice" [1] [1] (some [])).caller_meta = some [] ∧
    metaLookup [] "username" = none ∧
    (save_user_embeddings none "alice" [1] [1] (some [])).meta_data
      = [("username", "alice")] := by
  exact ⟨rfl, rfl, rfl⟩

/-- Claim C10 as amended: `save_user_embeddings` mutates the caller's
dict in place — adding or overwriting `"username"` — exactly when that
dict is non-`None` **and non-empty** (`meta or {}` treats the empty dict
like `None`); for a `None` or empty `meta` a fresh dict holding only the
username entry is stored and the caller's dict is left untouched. -/
theorem save_meta_aliasing (s : Store) (u : String) (f v : List ℚ) (m : MetaDict) :
    (save_user_embeddings s u f v (some m)).caller_meta
      = some (if m.isEmpty then m else metaInsert m "username" u) ∧
    (save_user_embeddings s u f v (some m)).meta_data
      = metaInsert (if m.isEmpty then [] else m) "username" u ∧
    (save_user_embeddings s u f v none).caller_meta = none ∧
    (save_user_embeddings s u f v none).meta_data = [("username", u)] ∧
    (m ≠ [] →
      metaLookup ((save_user_embeddings s u f v (some m)).caller_meta.getD []) "username"
        = some u) := by
  refine ⟨?_, rfl, rfl, rfl, ?_⟩
  · by_cases hm : m.isEmpty
    · simp [save_user_embeddings, hm]
    · simp [save_user_embeddings, hm, stored_meta]
  · intro hm
    have hm' : m.isEmpty = false := by
      cases m with
      | nil => exact absurd rfl hm
      | cons p t => rfl
    simp only [save_user_embeddings, hm', if_false, Option.getD_some, stored_meta,
      Bool.false_eq_true]
    exact metaLookup_metaInsert_self _ _ _

/-- Claim C10 witness: a non-empty caller dict ends up holding the
`"username"` entry after the call. -/
theorem save_meta_aliasing_witness :
    metaLookup
      ((save_user_embeddings none "alice" [1] [1] (some [("role", "admin")])).caller_meta.getD [])
      "username" = some "alice" :=
  (save_meta_aliasing none "alice" [1] [1] [("role", "admin")]).2.2.2.2 (by decide)

/-- Claim C1 counterexample: with one user enrolled (`alice`) and no
Admin Verify performed at all, ticking the client-side checkbox makes
`enrollPage` enroll `bob` successfully and create his template — the
claim says this must fail with `Unauthorized` and create nothing. The
gate is the caller-asserted `admin_flag`, not a workflow-held
authorization. -/
theorem enroll_without_verify_succeeds :
    (enrollPage sAlice true "bob" [1] [1]).2 = none ∧
    "bob" ∈ list_users (enrollPage sAlice true "bob" [1] [1]).1 := by decide

/-- Claim C1 as amended: the enrollment panel is gated solely by the
client-asserted `admin_flag` checkbox — with the flag unset nothing is
enrolled, and with the flag set enrollment of a fresh username succeeds
and creates a template with no prior passing verification threaded in
anywhere; the workflow itself enforces no authorization. -/
theorem enroll_gate_is_client_flag (s : Store) (u : String) (fenc venc : List ℚ) :
    enrollPage s false u fenc venc = (s, some AppError.unauthorized) ∧
    (u ∉ list_users s →
      (enrollPage s true u fenc venc).2 = none ∧
      u ∈ list_users (enrollPage s true u fenc venc).1) := by
  refine ⟨rfl, ?_⟩
  intro h
  have he : enrollPage s true u fenc venc
      = create s u fenc venc (some [("created_by", "admin")]) := rfl
  have hc : create s u fenc venc (some [("created_by", "admin")])
      = ((save_user_embeddings s u fenc venc (some [("created_by", "admin")])).store, none) := by
    unfold create; rw [if_neg h]
  rw [he, hc]
  exact ⟨rfl, mem_list_users_save s u fenc venc _⟩

/-- Claim C1 witness: enrolling `bob` with the checkbox ticked (and
nothing else) creates his directory. -/
theorem enroll_gate_is_client_flag_witness :
    "bob" ∈ list_users (enrollPage sAlice true "bob" [1] [1]).1 :=
  ((enroll_gate_is_client_flag sAlice "bob" [1] [1]).2 (by decide)).2

/-- Claim C3 counterexample: the username `".."` is not rejected; the
location accessed for it, `Path("users") / ".."`, resolves to the parent
of the store root — outside every per-username location under the store
root (the resolved path does not even extend the store root). -/
theorem user_dir_escapes_root :
    user_dir_path base_users_dir ".." = [] ∧
    ¬ (base_users_dir <+: user_dir_path base_users_dir "..") := by decide

/-- Claim C3 as amended: no path-traversal validation is performed on
usernames; a username whose components include `".."` (or an absolute
username) escapes the store root, and containment under the store root
holds exactly for the well-behaved usernames — relative ones whose
components contain no `".."` or `"."`. -/
theorem user_dir_containment_unvalidated (u : String)
    (habs : isAbsolute u = false)
    (hclean : ∀ c ∈ splitComponents u, c ≠ ".." ∧ c ≠ ".") :
    user_dir_path base_users_dir u = base_users_dir ++ splitComponents u ∧
    base_users_dir <+: user_dir_path base_users_dir u := by
  have h : user_dir_path base_users_dir u
      = osResolve (base_users_dir ++ splitComponents u) := by
    unfold user_dir_path
    rw [habs]
    rfl
  have h2 : osResolve (base_users_dir ++ splitComponents u)
      = base_users_dir ++ splitComponents u := by
    unfold osResolve
    have hall : ∀ c ∈ base_users_dir ++ splitComponents u, c ≠ ".." ∧ c ≠ "." := by
      intro c hc
      rcases List.mem_append.mp hc with hc | hc
      · simp only [base_users_dir, List.mem_singleton] at hc
        subst hc
        exact ⟨by decide, by decide⟩
      · exact hclean c hc
    simpa using osResolve_clean _ [] hall
  rw [h, h2]
  exact ⟨rfl, ⟨splitComponents u, rfl⟩⟩

/-- Claim C3 witness: the well-behaved username `"bob"` maps to the
per-username location directly under the store root. -/
theorem user_dir_containment_unvalidated_witness :
    user_dir_path base_users_dir "bob" = base_users_dir ++ splitComponents "bob" :=
  (user_dir_containment_unvalidated "bob" (by decide) (by decide)).1

/-- Claim C5 counterexample: verifying against the non-enrolled username
`"ghost"` with an image in which no face is found fails with
`NoFaceDetected`, not `UnknownUser` — so an extraction failure occurs
for a claimed username that has no stored template, and the store read
is not the first step. -/
theorem extraction_error_for_unknown_user :
    verifyFlow none "ghost" none (some [1]) = Except.error AppError.noFaceDetected ∧
    verifyFlow none "ghost" none (some [1]) ≠ Except.error AppError.userNotFound ∧
    list_users none = [] := by
  refine ⟨rfl, ?_, rfl⟩
  intro h
  rw [show verifyFlow none "ghost" none (some [1])
      = Except.error AppError.noFaceDetected from rfl] at h
  exact absurd (Except.error.inj h) (by decide)

/-- Claim C5 as amended: the Verify handler extracts the live face and
voice embeddings first and reads the store afterwards, so extraction
failures take precedence and occur regardless of enrollment; an unknown
claimed username yields `UnknownUser` (`FileNotFoundError`) only once
both extractions have succeeded. -/
theorem verify_extracts_before_read (s : Store) (target : String) :
    (∀ voiceRes, verifyFlow s target none voiceRes = Except.error AppError.noFaceDetected) ∧
    (∀ fl, verifyFlow s target (some fl) none = Except.error AppError.voiceExtractionFailed) ∧
    (∀ fl vl, target ∉ list_users s →
      verifyFlow s target (some fl) (some vl) = Except.error AppError.userNotFound) := by
  refine ⟨fun _ => rfl, fun _ => rfl, ?_⟩
  intro fl vl h
  have hn : (s.getD []).find? (fun p => p.1 == target) = none := by
    apply find?_key_none
    rwa [← list_users_getD]
  have hload : load_user_embeddings s target = Except.error AppError.userNotFound := by
    unfold load_user_embeddings
    rw [hn]
  unfold verifyFlow
  rw [hload]

/-- Claim C5 witness: with both extractions succeeding, verifying the
non-enrolled `"ghost"` against the one-user store fails with
`UnknownUser`. -/
theorem verify_extracts_before_read_witness :
    verifyFlow sAlice "ghost" (some [1]) (some [1]) = Except.error AppError.userNotFound :=
  (verify_extracts_before_read sAlice "ghost").2.2 [1] [1] (by decide)

/-- Claim C4: whenever the Verify handler reaches a decision, access is
granted exactly when the face decision and the voice decision both pass
their (default) thresholds — a logical AND with no weighted combination;
in particular a face score of 0.7 with a voice score of 0.5 is denied. -/
theorem granted_iff_face_and_voice (s : Store) (target : String)
    (faceRes voiceRes : Option (List ℚ)) (r : MatchResult)
    (h : verifyFlow s target faceRes voiceRes = Except.ok r) :
    (access_granted r ↔ r.face_ok ∧ r.voice_ok) ∧
    (r.face_ok ↔ r.face_score ≥ (0.55 : ℝ)) ∧
    (r.voice_ok ↔ r.voice_score ≥ (0.6 : ℝ)) ∧
    (r.face_score = 0.7 → r.voice_score = 0.5 → ¬ access_granted r) := by
  match faceRes with
  | none => exact absurd h (by simp [verifyFlow])
  | some fl =>
  match voiceRes with
  | none => exact absurd h (by simp [verifyFlow])
  | some vl =>
  match hl : load_user_embeddings s target with
  | Except.error e =>
    rw [show verifyFlow s target (some fl) (some vl)
        = Except.error e by unfold verifyFlow; rw [hl]] at h
    exact absurd h (by simp)
  | Except.ok (fs, vs, md) =>
    rw [show verifyFlow s target (some fl) (some vl)
        = Except.ok
          { face_ok := (is_face_match fl fs face_threshold).1
          , face_score := (is_face_match fl fs face_threshold).2
          , voice_ok := (is_voice_match vl vs voice_threshold).1
          , voice_score := (is_voice_match vl vs voice_threshold).2 }
        by unfold verifyFlow; rw [hl]] at h
    have hr := Except.ok.inj h
    subst hr
    have hft : ((face_threshold : ℚ) : ℝ) = 0.55 := by norm_num [face_threshold]
    have hvt : ((voice_threshold : ℚ) : ℝ) = 0.6 := by norm_num [voice_threshold]
    refine ⟨Iff.rfl, ?_, ?_, ?_⟩
    · show cosine_score fl fs ≥ ((face_threshold : ℚ) : ℝ)
        ↔ cosine_score fl fs ≥ (0.55 : ℝ)
      rw [hft]
    · show cosine_score vl vs ≥ ((voice_threshold : ℚ) : ℝ)
        ↔ cosine_score vl vs ≥ (0.6 : ℝ)
      rw [hvt]
    · intro _ h2 hg
      have hv : cosine_score vl vs ≥ ((voice_threshold : ℚ) : ℝ) := hg.2
      have h2' : cosine_score vl vs = 0.5 := h2
      rw [h2', hvt] at hv
      norm_num at hv

/-- Stored face template of the C4 witness (unit norm). -/
def wFaceStored : List ℚ := [1, 0, 0, 0]

/-- Stored voice template of the C4 witness (unit norm). -/
def wVoiceStored : List ℚ := [1, 0, 0, 0]

/-- Live face embedding of the C4 witness: unit norm, cosine similarity
with `wFaceStored` exactly 0.7. -/
def wFaceLive : List ℚ := [0.7, 0.7, 0.1, 0.1]

/-- Live voice embedding of the C4 witness: unit norm, cosine similarity
with `wVoiceStored` exactly 0.5. -/
def wVoiceLive : List ℚ := [0.5, 0.5, 0.5, 0.5]

/-- The C4 witness store: `alice` enrolled with the unit-norm templates. -/
def wStore : Store :=
  some [("alice", ⟨some wFaceStored, some wVoiceStored, some [("username", "alice")]⟩)]

/-- The match result the Verify handler produces for the C4 witness. -/
noncomputable def wR : MatchResult :=
  { face_ok := (is_face_match wFaceLive wFaceStored face_threshold).1
  , face_score := (is_face_match wFaceLive wFaceStored face_threshold).2
  , voice_ok := (is_voice_match wVoiceLive wVoiceStored voice_threshold).1
  , voice_score := (is_voice_match wVoiceLive wVoiceStored voice_threshold).2 }

lemma cosine_wface : cosine_score wFaceLive wFaceStored = 0.7 := by
  unfold cosine_score
  rw [show dotQ wFaceLive wFaceStored = 0.7 by norm_num [dotQ, wFaceLive, wFaceStored],
    show dotQ wFaceLive wFaceLive = 1 by norm_num [dotQ, wFaceLive],
    show dotQ wFaceStored wFaceStored = 1 by norm_num [dotQ, wFaceStored]]
  push_cast
  rw [Real.sqrt_one]
  norm_num

lemma cosine_wvoice : cosine_score wVoiceLive wVoiceStored = 0.5 := by
  unfold cosine_score
  rw [show dotQ wVoiceLive wVoiceStored = 0.5 by norm_num [dotQ, wVoiceLive, wVoiceStored],
    show dotQ wVoiceLive wVoiceLive = 1 by norm_num [dotQ, wVoiceLive],
    show dotQ wVoiceStored wVoiceStored = 1 by norm_num [dotQ, wVoiceStored]]
  push_cast
  rw [Real.sqrt_one]
  norm_num

/-- Claim C4 witness: at face score 0.7 and voice score 0.5 (default
thresholds 0.55 and 0.6) the concrete verification is denied. -/
theorem granted_iff_face_and_voice_witness : ¬ access_granted wR :=
  (granted_iff_face_and_voice wStore "alice" (some wFaceLive) (some wVoiceLive) wR
    rfl).2.2.2 cosine_wface cosine_wvoice
